import Mathlib

/-!
Shallow embedding of the task-route handlers of the FullStack-TaskManager
backend (backend/routes/taskRoutes.js) and proofs about them.

The Express handlers are modelled as pure functions from the authenticated
user's id (set by the auth middleware as req.user.id), the parsed JSON
request body, and the current database state (a list of Task documents)
to an HTTP response together with the updated database state.

JavaScript request-body fields can be absent (undefined), null, or a JSON
value; the handlers branch on truthiness (undefined, null, false, 0 and ""
are falsy) and on strict comparison with undefined and "".  `JsVal` models
the field values the handlers inspect.
-/

namespace TaskManager

/-- A JavaScript value as it appears in a request-body field: absent
(`undef`), `null`, a boolean, a number, or a string. -/
inductive JsVal where
  | undef : JsVal
  | null : JsVal
  | bool : Bool → JsVal
  | num : Int → JsVal
  | str : String → JsVal
  deriving DecidableEq, Repr

/-- JavaScript truthiness: undefined, null, false, 0 and "" are falsy,
everything else is truthy. -/
def JsVal.truthy : JsVal → Bool
  | .undef => false
  | .null => false
  | .bool b => b
  | .num n => n != 0
  | .str s => s != ""

/-- A stored Task document.  Fields mirror the Mongoose Task model used by
the routes: owner reference `user`, `title`, `description`, `priority`,
`dueDate` (nullable), `status`, and the creation timestamp. -/
structure Task where
  id : String
  user : String
  title : JsVal
  description : JsVal
  priority : JsVal
  dueDate : JsVal
  status : JsVal
  createdAt : Nat
  deriving DecidableEq, Repr

/-- The fields of a task request body that the handlers destructure.  A
body may also carry an owner field (`user`); the handlers never read it,
but we keep it in the record so that theorems can quantify over it. -/
structure TaskBody where
  title : JsVal
  description : JsVal
  priority : JsVal
  dueDate : JsVal
  status : JsVal
  user : JsVal
  deriving DecidableEq, Repr

/-- The JSON body of an HTTP response produced by the task routes. -/
inductive RespBody where
  | msg : String → RespBody
  | task : Task → RespBody
  | tasks : List Task → RespBody
  deriving DecidableEq, Repr

/-- An HTTP response: status code and JSON body. -/
structure Response where
  status : Nat
  body : RespBody
  deriving DecidableEq, Repr

deriving instance DecidableEq for Except

/-- Is the character a hexadecimal digit? -/
def isHexChar (c : Char) : Bool :=
  c.isDigit || ('a' ≤ c && c ≤ 'f') || ('A' ≤ c && c ≤ 'F')

/-- Can the string be cast to a MongoDB ObjectId?  Mongoose casts
24-character hexadecimal strings and 12-byte strings; anything else makes
`findById` reject with a CastError whose kind is "ObjectId". -/
def isValidObjectId (s : String) : Bool :=
  (s.length == 24 && s.data.all isHexChar) || s.utf8ByteSize == 12

/-- `Task.findById(id)`: Mongoose first casts the id to an ObjectId,
rejecting an uncastable id with a CastError of kind "ObjectId" (which the
handlers' catch blocks turn into 400 "Invalid task ID"); with a castable
id it resolves to the first stored document whose `_id` matches, or to
nothing. -/
def findById (db : List Task) (taskId : String) : Except String (Option Task) :=
  if isValidObjectId taskId then .ok (db.find? (fun t => t.id == taskId))
  else .error "ObjectId"

/-- POST /api/tasks.  Destructures `{title, description, priority, dueDate}`
from the body, rejects a falsy title with 400, otherwise builds the new
task with `user: req.user.id` and `dueDate: dueDate || null`, saves it and
responds 201 with the created task.  `freshId` and `now` stand for the
document id and creation timestamp the store assigns on save (the Mongoose
model file itself is not part of the routed source; per the spec it
enforces no application-level invariant, so save is modelled as
unconditional persistence).  `newTaskOf` is the document the handler
builds with `new Task(\x7b user: req.user.id, title, description, priority,
dueDate: dueDate || null \x7d)`. -/
def newTaskOf (uid : String) (body : TaskBody) (freshId : String) (now : Nat) : Task :=
  { id := freshId
    user := uid
    title := body.title
    description := body.description
    priority := body.priority
    dueDate := if body.dueDate.truthy then body.dueDate else JsVal.null
    status := JsVal.undef
    createdAt := now }

/-- POST /api/tasks, continued: the handler proper. -/
def addTask (uid : String) (body : TaskBody) (freshId : String) (now : Nat)
    (db : List Task) : Response × List Task :=
  if !body.title.truthy then
    ({ status := 400, body := .msg "Task title is required" }, db)
  else
    ({ status := 201, body := .task (newTaskOf uid body freshId now) },
     newTaskOf uid body freshId now :: db)

/-- Insert a task into a list sorted by `createdAt` descending (stable). -/
def insertDesc (t : Task) : List Task → List Task
  | [] => [t]
  | h :: tl => if h.createdAt ≤ t.createdAt then t :: h :: tl else h :: insertDesc t tl

/-- Stable sort by `createdAt` descending, modelling
`.sort(\x7b createdAt: -1 \x7d)`. -/
def sortByCreatedDesc : List Task → List Task
  | [] => []
  | h :: tl => insertDesc h (sortByCreatedDesc tl)

/-- GET /api/tasks: `Task.find(\x7b user: req.user.id \x7d)` sorted by creation
date descending, responded with status 200. -/
def getTasks (uid : String) (db : List Task) : Response :=
  { status := 200, body := .tasks (sortByCreatedDesc (db.filter (fun t => t.user == uid))) }

/-- PUT /api/tasks/:id.  Looks the task up by id (the CastError of an
uncastable id lands in the catch block, which answers 400 "Invalid task
ID"; a castable but absent id gets 404), checks ownership (401 if the
owner differs from the authenticated user), then
merges the body into the task exactly as the source does:
title/priority/status by `||` (truthiness), description/dueDate by
`!== undefined`, and finally resets dueDate to null when the body passed
the empty string.  Responds with the updated task and replaces the stored
document. -/
def updateTask (uid : String) (taskId : String) (body : TaskBody)
    (db : List Task) : Response × List Task :=
  match findById db taskId with
  | .error kind =>
    if kind = "ObjectId" then
      ({ status := 400, body := .msg "Invalid task ID" }, db)
    else
      ({ status := 500, body := .msg "Server error" }, db)
  | .ok none => ({ status := 404, body := .msg "Task not found" }, db)
  | .ok (some task) =>
    if task.user ≠ uid then
      ({ status := 401, body := .msg "Not authorized" }, db)
    else
      let t1 : Task :=
        { task with
          title := if body.title.truthy then body.title else task.title
          description := if body.description = JsVal.undef then task.description else body.description
          priority := if body.priority.truthy then body.priority else task.priority
          dueDate := if body.dueDate = JsVal.undef then task.dueDate else body.dueDate
          status := if body.status.truthy then body.status else task.status }
      let t2 : Task := if body.dueDate = JsVal.str "" then { t1 with dueDate := JsVal.null } else t1
      ({ status := 200, body := .task t2 },
       db.map (fun t => if t.id == taskId then t2 else t))

/-- DELETE /api/tasks/:id.  Looks the task up by id (an uncastable id's
CastError lands in the catch block, answering 400 "Invalid task ID"; a
castable but absent id gets 404), checks ownership (401 on mismatch),
then `deleteOne(\x7b _id \x7d)` removes the
matching document and the handler responds 200 `\x7b msg: "Task removed" \x7d`. -/
def deleteTask (uid : String) (taskId : String) (db : List Task) :
    Response × List Task :=
  match findById db taskId with
  | .error kind =>
    if kind = "ObjectId" then
      ({ status := 400, body := .msg "Invalid task ID" }, db)
    else
      ({ status := 500, body := .msg "Server error" }, db)
  | .ok none => ({ status := 404, body := .msg "Task not found" }, db)
  | .ok (some task) =>
    if task.user ≠ uid then
      ({ status := 401, body := .msg "Not authorized" }, db)
    else
      ({ status := 200, body := .msg "Task removed" },
       db.eraseP (fun t => t.id == taskId))

/-! ### The AI-suggestion endpoint (POST /api/tasks/suggest)

The handler forwards a prompt to an external generative-AI API with a
single `fetch` and validates the shape of the returned JSON.  We model
JSON documents, the JavaScript property accesses the validation performs
(property access on `null`/`undefined` throws a TypeError, which the
surrounding try/catch turns into a 500), `JSON.parse`, and the handler as
a function of the single external call's outcome.  The pair's second
component counts the outbound HTTP calls the handler issued. -/

/-- A JSON document, as returned by `response.json()` or `JSON.parse`. -/
inductive Json where
  | null : Json
  | bool : Bool → Json
  | num : Rat → Json
  | str : String → Json
  | arr : List Json → Json
  | obj : List (String × Json) → Json

/-- A JavaScript expression value: `undefined` (`none`) or a JSON value. -/
abbrev JsExpr := Option Json

/-- Truthiness of a JavaScript expression value. -/
def jsTruthy : JsExpr → Bool
  | none => false
  | some Json.null => false
  | some (Json.bool b) => b
  | some (Json.num n) => n != 0
  | some (Json.str s) => !s.isEmpty
  | some (Json.arr _) => true
  | some (Json.obj _) => true

/-- JavaScript property access `x.k`.  Throws a TypeError on `undefined`
and `null`; looks fields up on objects; exposes `length` on arrays and
strings; yields `undefined` on other primitives. -/
def getProp : JsExpr → String → Except String JsExpr
  | none, _ => .error "TypeError"
  | some Json.null, _ => .error "TypeError"
  | some (Json.obj fs), k => .ok ((fs.find? (fun p => p.1 == k)).map Prod.snd)
  | some (Json.arr a), k =>
      .ok (if k == "length" then some (Json.num a.length) else none)
  | some (Json.str s), k =>
      .ok (if k == "length" then some (Json.num s.length) else none)
  | some _, _ => .ok none

/-- JavaScript indexing `x[0]`.  Throws on `undefined`/`null`; picks the
first element of an array, the first character of a string, the field
named "0" of an object; `undefined` otherwise. -/
def getIndex0 : JsExpr → Except String JsExpr
  | none => .error "TypeError"
  | some Json.null => .error "TypeError"
  | some (Json.arr a) => .ok a.head?
  | some (Json.obj fs) => .ok ((fs.find? (fun p => p.1 == "0")).map Prod.snd)
  | some (Json.str s) =>
      .ok (match s.data with
           | [] => none
           | c :: _ => some (Json.str (String.mk [c])))
  | some _ => .ok none

/-- JavaScript `x > 0` for the values `length` accesses can produce:
numbers compare numerically, booleans coerce to 0/1, numeric strings
coerce to their number, `undefined`/`null` and the rest are not greater
than zero. -/
def jsGtZero : JsExpr → Bool
  | some (Json.num n) => 0 < n
  | some (Json.bool b) => b
  | some (Json.str s) => (s.toInt?.map (fun n => decide (0 < n))).getD false
  | _ => false

mutual
/-- JavaScript string coercion `String(x)` of a JSON value, as applied by
`JSON.parse` to a non-string argument. -/
def jsonToStr : Json → String
  | Json.null => "null"
  | Json.bool b => if b then "true" else "false"
  | Json.num n => if n.den = 1 then toString n.num else toString n
  | Json.str s => s
  | Json.arr a => jsonListToStr a
  | Json.obj _ => "[object Object]"

/-- Elements of an array joined with "," (null elements print empty). -/
def jsonListToStr : List Json → String
  | [] => ""
  | [Json.null] => ""
  | [j] => jsonToStr j
  | Json.null :: tl => "," ++ jsonListToStr tl
  | j :: tl => jsonToStr j ++ "," ++ jsonListToStr tl
end

/-- String coercion of a defined JavaScript value. -/
def jsToString : JsExpr → String
  | none => "undefined"
  | some j => jsonToStr j

/-- The response-shape validation of the suggest handler, line by line:
`result.candidates && result.candidates.length > 0 &&
result.candidates[0].content && result.candidates[0].content.parts &&
result.candidates[0].content.parts.length > 0 &&
result.candidates[0].content.parts[0].text`.
Returns `.error` when an access throws a TypeError (caught by the outer
catch), `.ok none` when the condition is falsy, and `.ok (some rawText)`
with the string coercion of the text value when it passes. -/
def extractRawText (result : Json) : Except String (Option String) := do
  let candidates ← getProp (some result) "candidates"
  if !jsTruthy candidates then return none
  let len ← getProp candidates "length"
  if !jsGtZero len then return none
  let c0 ← getIndex0 candidates
  let content ← getProp c0 "content"
  if !jsTruthy content then return none
  let parts ← getProp content "parts"
  if !jsTruthy parts then return none
  let plen ← getProp parts "length"
  if !jsGtZero plen then return none
  let p0 ← getIndex0 parts
  let text ← getProp p0 "text"
  if !jsTruthy text then return none
  return some (jsToString text)

/-! #### JSON.parse -/

/-- The double-quote character. -/
def quoteCh : Char := Char.ofNat 34

/-- The backslash character. -/
def backslashCh : Char := Char.ofNat 92

/-- The opening-brace character. -/
def lbraceCh : Char := Char.ofNat 123

/-- The closing-brace character. -/
def rbraceCh : Char := Char.ofNat 125

/-- Skip JSON whitespace. -/
def skipWs : List Char → List Char
  | [] => []
  | c :: rest =>
      if c == ' ' || c == Char.ofNat 9 || c == Char.ofNat 10 || c == Char.ofNat 13 then
        skipWs rest
      else c :: rest

/-- The character a single-character JSON escape stands for. -/
def escCharOf (e : Char) : Option Char :=
  if e == quoteCh || e == backslashCh || e == '/' then some e
  else if e == 'n' then some (Char.ofNat 10)
  else if e == 't' then some (Char.ofNat 9)
  else if e == 'r' then some (Char.ofNat 13)
  else if e == 'b' then some (Char.ofNat 8)
  else if e == 'f' then some (Char.ofNat 12)
  else none

/-- Value of a hexadecimal digit. -/
def hexDigitVal (c : Char) : Option Nat :=
  if '0' ≤ c && c ≤ '9' then some (c.toNat - 48)
  else if 'a' ≤ c && c ≤ 'f' then some (c.toNat - 87)
  else if 'A' ≤ c && c ≤ 'F' then some (c.toNat - 55)
  else none

/-- Parse the body of a JSON string after its opening quote; returns the
string and the input past the closing quote. -/
def parseStringBody : List Char → Option (String × List Char)
  | [] => none
  | c :: rest =>
    if c == quoteCh then some ("", rest)
    else if c == backslashCh then
      match rest with
      | [] => none
      | e :: rest2 =>
        if e == 'u' then
          match rest2 with
          | h1 :: h2 :: h3 :: h4 :: rest3 =>
            match hexDigitVal h1, hexDigitVal h2, hexDigitVal h3, hexDigitVal h4 with
            | some a, some b, some c2, some d =>
              match parseStringBody rest3 with
              | some (s, r) =>
                  some (String.mk (Char.ofNat (((a * 16 + b) * 16 + c2) * 16 + d) :: s.data), r)
              | none => none
            | _, _, _, _ => none
          | _ => none
        else
          match escCharOf e with
          | some ch =>
            match parseStringBody rest2 with
            | some (s, r) => some (String.mk (ch :: s.data), r)
            | none => none
          | none => none
    else
      match parseStringBody rest with
      | some (s, r) => some (String.mk (c :: s.data), r)
      | none => none

/-- Numeric value of a digit list. -/
def digitsVal (l : List Char) : Nat :=
  l.foldl (fun acc c => acc * 10 + (c.toNat - 48)) 0

/-- Parse a JSON number (integer part, optional fraction, optional
exponent).  Laxer than the JSON grammar only on leading zeros, which no
claim depends on. -/
def parseNumber (cs : List Char) : Option (Rat × List Char) :=
  let signSplit : Bool × List Char :=
    match cs with
    | c :: rest => if c == '-' then (true, rest) else (false, cs)
    | [] => (false, [])
  let neg := signSplit.1
  let cs1 := signSplit.2
  let ds := cs1.takeWhile Char.isDigit
  let cs2 := cs1.dropWhile Char.isDigit
  if ds.isEmpty then none
  else
    let ip : Rat := (digitsVal ds : Nat)
    let fracStep : Option (Rat × List Char) :=
      match cs2 with
      | c :: rest =>
        if c == '.' then
          let fs := rest.takeWhile Char.isDigit
          if fs.isEmpty then none
          else some (ip + (digitsVal fs : Nat) / ((10 : Rat) ^ fs.length),
                     rest.dropWhile Char.isDigit)
        else some (ip, cs2)
      | [] => some (ip, [])
    match fracStep with
    | none => none
    | some (base, cs3) =>
      let expStep : Option (Rat × List Char) :=
        match cs3 with
        | c :: rest =>
          if c == 'e' || c == 'E' then
            let expSign : Bool × List Char :=
              match rest with
              | d :: r2 =>
                if d == '-' then (true, r2)
                else if d == '+' then (false, r2)
                else (false, rest)
              | [] => (false, [])
            let es := expSign.2.takeWhile Char.isDigit
            if es.isEmpty then none
            else
              let p : Rat := (10 : Rat) ^ (digitsVal es)
              some (if expSign.1 then base / p else base * p,
                    expSign.2.dropWhile Char.isDigit)
          else some (base, cs3)
        | [] => some (base, [])
      match expStep with
      | none => none
      | some (v, cs4) => some (if neg then -v else v, cs4)

/-- Consume an expected literal. -/
def dropLiteral : List Char → List Char → Option (List Char)
  | [], cs => some cs
  | l :: ls, c :: cs => if c == l then dropLiteral ls cs else none
  | _ :: _, [] => none

mutual
/-- Parse one JSON value (fuelled recursive descent). -/
def parseVal : Nat → List Char → Option (Json × List Char)
  | 0, _ => none
  | fuel + 1, cs =>
    match skipWs cs with
    | [] => none
    | c :: rest =>
      if c == quoteCh then
        match parseStringBody rest with
        | some (s, r) => some (Json.str s, r)
        | none => none
      else if c == lbraceCh then parseObjStart fuel rest
      else if c == '[' then parseArrStart fuel rest
      else
        match dropLiteral "true".data (c :: rest) with
        | some r => some (Json.bool true, r)
        | none =>
          match dropLiteral "false".data (c :: rest) with
          | some r => some (Json.bool false, r)
          | none =>
            match dropLiteral "null".data (c :: rest) with
            | some r => some (Json.null, r)
            | none =>
              match parseNumber (c :: rest) with
              | some (v, r) => some (Json.num v, r)
              | none => none

/-- Parse an array body after the opening bracket. -/
def parseArrStart : Nat → List Char → Option (Json × List Char)
  | 0, _ => none
  | fuel + 1, cs =>
    match skipWs cs with
    | [] => none
    | c :: rest =>
      if c == ']' then some (Json.arr [], rest)
      else
        match parseVal fuel (c :: rest) with
        | some (j, r) => parseArrRest fuel [j] r
        | none => none

/-- Parse the remaining elements of an array after a complete element. -/
def parseArrRest : Nat → List Json → List Char → Option (Json × List Char)
  | 0, _, _ => none
  | fuel + 1, acc, cs =>
    match skipWs cs with
    | [] => none
    | c :: rest =>
      if c == ']' then some (Json.arr acc.reverse, rest)
      else if c == ',' then
        match parseVal fuel rest with
        | some (j, r) => parseArrRest fuel (j :: acc) r
        | none => none
      else none

/-- Parse an object body after the opening brace. -/
def parseObjStart : Nat → List Char → Option (Json × List Char)
  | 0, _ => none
  | fuel + 1, cs =>
    match skipWs cs with
    | [] => none
    | c :: rest =>
      if c == rbraceCh then some (Json.obj [], rest)
      else if c == quoteCh then
        match parseStringBody rest with
        | some (k, r) => parseObjField fuel [] k r
        | none => none
      else none

/-- Parse one object field value after its key, then continue. -/
def parseObjField : Nat → List (String × Json) → String → List Char →
    Option (Json × List Char)
  | 0, _, _, _ => none
  | fuel + 1, acc, k, cs =>
    match skipWs cs with
    | [] => none
    | c :: rest =>
      if c == ':' then
        match parseVal fuel rest with
        | some (j, r) => parseObjRest fuel ((k, j) :: acc) r
        | none => none
      else none

/-- Parse the remaining fields of an object after a complete field. -/
def parseObjRest : Nat → List (String × Json) → List Char →
    Option (Json × List Char)
  | 0, _, _ => none
  | fuel + 1, acc, cs =>
    match skipWs cs with
    | [] => none
    | c :: rest =>
      if c == rbraceCh then some (Json.obj acc.reverse, rest)
      else if c == ',' then
        match skipWs rest with
        | [] => none
        | c2 :: rest2 =>
          if c2 == quoteCh then
            match parseStringBody rest2 with
            | some (k, r) => parseObjField fuel acc k r
            | none => none
          else none
      else none
end

/-- `JSON.parse`: parse a complete JSON document, requiring only
whitespace to remain. -/
def jsonParse (s : String) : Option Json :=
  match parseVal (s.length + 1) s.data with
  | some (j, rest) => if (skipWs rest).isEmpty then some j else none
  | none => none

/-! #### The handler -/

/-- The outcome of the handler's single `fetch` to the external AI
service: the fetch rejected (network error), the service answered with a
non-OK status, the body failed to parse as JSON, or a parsed JSON body. -/
inductive FetchOutcome where
  | netError : String → FetchOutcome
  | notOk : Nat → String → String → FetchOutcome
  | okBadJson : String → FetchOutcome
  | okJson : Json → FetchOutcome

/-- The JSON body of a response of the suggest endpoint. -/
inductive SuggestBody where
  | msg : String → SuggestBody
  | msgDetails : String → String → SuggestBody
  | suggestions : List Json → SuggestBody

/-- A response of the suggest endpoint. -/
structure SuggestResponse where
  status : Nat
  body : SuggestBody

/-- POST /api/tasks/suggest.  Returns the response paired with the number
of outbound HTTP calls issued.  The body's `mainTaskTitle` is required
(400) before anything else; then the `GEMINI_API_KEY` configuration value
(`process.env.GEMINI_API_KEY || ""`, so an unset key is the empty string)
is required (500).  Only then is the single `fetch` issued, whose outcome
`ext` determines the rest: a rejected fetch or a body that fails
`response.json()` lands in the outer catch (500); a non-OK status is
echoed with the Gemini error text; an OK JSON body goes through the shape
validation `extractRawText`, whose text is `JSON.parse`d and must be an
array (200), every failure of which is a 500. -/
def suggest (mainTaskTitle : JsExpr) (apiKey : String) (ext : FetchOutcome) :
    SuggestResponse × Nat :=
  if !jsTruthy mainTaskTitle then
    ({ status := 400, body := .msg "Main task title is required for suggestions." }, 0)
  else if apiKey = "" then
    ({ status := 500, body := .msg "AI service not configured: GEMINI_API_KEY is missing." }, 0)
  else
    match ext with
    | .netError m =>
        ({ status := 500,
           body := .msgDetails "Server error while fetching AI suggestions." m }, 1)
    | .notOk st stText errText =>
        ({ status := st,
           body := .msgDetails ("Gemini API error: " ++ stText) errText }, 1)
    | .okBadJson m =>
        ({ status := 500,
           body := .msgDetails "Server error while fetching AI suggestions." m }, 1)
    | .okJson result =>
        match extractRawText result with
        | .error m =>
            ({ status := 500,
               body := .msgDetails "Server error while fetching AI suggestions." m }, 1)
        | .ok none =>
            ({ status := 500,
               body := .msg "No valid AI suggestions received from the service." }, 1)
        | .ok (some rawJsonText) =>
            match jsonParse rawJsonText with
            | none =>
                ({ status := 500,
                   body := .msgDetails
                     "Failed to parse AI suggestions (invalid format from Gemini)."
                     "SyntaxError" }, 1)
            | some (Json.arr l) =>
                ({ status := 200, body := .suggestions l }, 1)
            | some _ =>
                ({ status := 500,
                   body := .msgDetails
                     "Failed to parse AI suggestions (invalid format from Gemini)."
                     "Parsed suggestions are not an array." }, 1)

/-! ### Concrete sample data used by witnesses -/

/-- A sample stored task owned by "alice". -/
def sampleTask : Task :=
  { id := "507f1f77bcf86cd799439011", user := "alice", title := JsVal.str "Write report"
    description := JsVal.str "Quarterly numbers", priority := JsVal.str "high"
    dueDate := JsVal.null, status := JsVal.str "pending", createdAt := 5 }

/-- A request body with every field absent. -/
def emptyBody : TaskBody :=
  { title := JsVal.undef, description := JsVal.undef, priority := JsVal.undef
    dueDate := JsVal.undef, status := JsVal.undef, user := JsVal.undef }

/-- A request body with a non-empty title and an owner field set by the
client (which the handlers must ignore). -/
def titledBody : TaskBody :=
  { title := JsVal.str "Buy groceries", description := JsVal.str "Milk"
    priority := JsVal.str "low", dueDate := JsVal.undef
    status := JsVal.undef, user := JsVal.str "mallory" }

/-! ### Claims about the CRUD handlers -/

/-- C1: when the task with the given id exists but its owner differs from
the authenticated user, both PUT /api/tasks/:id and DELETE /api/tasks/:id
respond 401 with msg "Not authorized" and leave the stored collection
unchanged. -/
theorem put_delete_unauthorized (uid taskId : String) (body : TaskBody)
    (db : List Task) (task : Task)
    (hfind : findById db taskId = .ok (some task)) (hown : task.user ≠ uid) :
    updateTask uid taskId body db =
      ({ status := 401, body := .msg "Not authorized" }, db) ∧
    deleteTask uid taskId db =
      ({ status := 401, body := .msg "Not authorized" }, db) := by
  constructor
  · simp [updateTask, hfind, hown]
  · simp [deleteTask, hfind, hown]

/-- Witness for C1 at a concrete database: "bob" cannot touch "alice"'s
task. -/
theorem put_delete_unauthorized_witness :
    updateTask "bob" "507f1f77bcf86cd799439011" emptyBody [sampleTask] =
      ({ status := 401, body := .msg "Not authorized" }, [sampleTask]) ∧
    deleteTask "bob" "507f1f77bcf86cd799439011" [sampleTask] =
      ({ status := 401, body := .msg "Not authorized" }, [sampleTask]) :=
  put_delete_unauthorized "bob" "507f1f77bcf86cd799439011" emptyBody [sampleTask] sampleTask
    (by decide) (by decide)

/-- C9 counterexample: the id "nope" matches no stored task, yet both PUT
and DELETE respond 400 "Invalid task ID", not 404: "nope" fails ObjectId
casting, Task.findById rejects with a CastError, and the handlers' catch
blocks answer 400.  The collection is still unchanged. -/
theorem put_delete_uncastable_id_counterexample :
    sampleTask.id ≠ "nope" ∧
    updateTask "alice" "nope" emptyBody [sampleTask] =
      ({ status := 400, body := .msg "Invalid task ID" }, [sampleTask]) ∧
    deleteTask "alice" "nope" [sampleTask] =
      ({ status := 400, body := .msg "Invalid task ID" }, [sampleTask]) := by
  refine ⟨by decide, ?_, ?_⟩ <;> rfl

/-- C9 as amended: a PUT or DELETE whose id casts to an ObjectId but
matches no stored task gets 404 with msg "Task not found"; an id that
fails ObjectId casting gets 400 with msg "Invalid task ID" from the catch
block instead.  In both cases the stored collection is unchanged. -/
theorem put_delete_not_found_or_invalid (uid taskId : String)
    (body : TaskBody) (db : List Task) :
    (findById db taskId = .ok none →
      updateTask uid taskId body db =
        ({ status := 404, body := .msg "Task not found" }, db) ∧
      deleteTask uid taskId db =
        ({ status := 404, body := .msg "Task not found" }, db)) ∧
    (findById db taskId = .error "ObjectId" →
      updateTask uid taskId body db =
        ({ status := 400, body := .msg "Invalid task ID" }, db) ∧
      deleteTask uid taskId db =
        ({ status := 400, body := .msg "Invalid task ID" }, db)) := by
  constructor
  · intro hfind
    constructor
    · simp [updateTask, hfind]
    · simp [deleteTask, hfind]
  · intro hfind
    constructor
    · simp [updateTask, hfind]
    · simp [deleteTask, hfind]

/-- Witness for the amended C9: a castable absent id gets 404, an
uncastable one gets 400. -/
theorem put_delete_not_found_or_invalid_witness :
    (updateTask "alice" "ffffffffffffffffffffffff" emptyBody [sampleTask] =
      ({ status := 404, body := .msg "Task not found" }, [sampleTask]) ∧
     deleteTask "alice" "ffffffffffffffffffffffff" [sampleTask] =
      ({ status := 404, body := .msg "Task not found" }, [sampleTask])) ∧
    (updateTask "alice" "nope" emptyBody [sampleTask] =
      ({ status := 400, body := .msg "Invalid task ID" }, [sampleTask]) ∧
     deleteTask "alice" "nope" [sampleTask] =
      ({ status := 400, body := .msg "Invalid task ID" }, [sampleTask])) :=
  ⟨(put_delete_not_found_or_invalid "alice" "ffffffffffffffffffffffff"
      emptyBody [sampleTask]).1 (by decide),
   (put_delete_not_found_or_invalid "alice" "nope"
      emptyBody [sampleTask]).2 (by decide)⟩

/-- C2: every successful POST /api/tasks (status 201) creates and returns
a task whose `user` field is the authenticated user's id from the auth
middleware, whatever owner the request body carried. -/
theorem post_sets_owner_from_auth (uid : String) (body : TaskBody)
    (freshId : String) (now : Nat) (db : List Task)
    (h : (addTask uid body freshId now db).1.status = 201) :
    ∃ t : Task, (addTask uid body freshId now db).1.body = .task t ∧
      t.user = uid ∧ (addTask uid body freshId now db).2 = t :: db := by
  by_cases ht : body.title.truthy
  · exact ⟨newTaskOf uid body freshId now, by simp [addTask, ht], rfl,
      by simp [addTask, ht]⟩
  · simp [addTask, ht] at h

/-- Witness for C2: a body claiming owner "mallory" is created for the
authenticated "alice". -/
theorem post_sets_owner_from_auth_witness :
    ∃ t : Task, (addTask "alice" titledBody "t2" 7 []).1.body = .task t ∧
      t.user = "alice" ∧ (addTask "alice" titledBody "t2" 7 []).2 = t :: [] :=
  post_sets_owner_from_auth "alice" titledBody "t2" 7 [] (by decide)

/-- C4: the due date is nullable: a successful POST whose body has a
falsy (absent, null or empty) dueDate stores the task with dueDate null,
and a PUT on an owned task whose body passes dueDate as the empty string
sets the stored dueDate to null. -/
theorem dueDate_nullable (uid freshId taskId : String) (body bodyPut : TaskBody)
    (now : Nat) (db : List Task) (task : Task)
    (hTitle : body.title.truthy = true) (hDue : body.dueDate.truthy = false)
    (hfind : findById db taskId = .ok (some task)) (hown : task.user = uid)
    (hDuePut : bodyPut.dueDate = JsVal.str "") :
    (∃ t : Task,
      addTask uid body freshId now db =
        ({ status := 201, body := .task t }, t :: db) ∧ t.dueDate = JsVal.null) ∧
    (∃ t : Task,
      (updateTask uid taskId bodyPut db).1 = { status := 200, body := .task t } ∧
      t.dueDate = JsVal.null) := by
  constructor
  · exact ⟨newTaskOf uid body freshId now, by simp [addTask, hTitle],
      by simp [newTaskOf, hDue]⟩
  · simp only [updateTask, hfind, hown, hDuePut]
    simp

/-- Witness for C4: a body with no dueDate creates a null dueDate, and a
PUT with dueDate "" nulls it. -/
theorem dueDate_nullable_witness :
    (∃ t : Task,
      addTask "alice" titledBody "t2" 7 [sampleTask] =
        ({ status := 201, body := .task t }, t :: [sampleTask]) ∧
      t.dueDate = JsVal.null) ∧
    (∃ t : Task,
      (updateTask "alice" "507f1f77bcf86cd799439011"
        { emptyBody with dueDate := JsVal.str "" } [sampleTask]).1 =
        { status := 200, body := .task t } ∧
      t.dueDate = JsVal.null) :=
  dueDate_nullable "alice" "t2" "507f1f77bcf86cd799439011" titledBody
    { emptyBody with dueDate := JsVal.str "" } 7 [sampleTask] sampleTask
    (by decide) (by decide) (by decide) (by decide) (by decide)

/-- C7 counterexample: the POST handler does validate a task field — it
rejects a body whose title is absent (or otherwise falsy) with 400 "Task
title is required" and stores nothing, while the same body with a
non-empty title is accepted with 201.  So the application code does impose
a validation condition on `title`, beyond the owner-equality check. -/
theorem title_validation_exists :
    addTask "alice" emptyBody "t9" 0 [] =
      ({ status := 400, body := .msg "Task title is required" }, []) ∧
    (addTask "alice" { emptyBody with title := JsVal.str "x" } "t9" 0 []).1.status
      = 201 := by
  constructor
  · rfl
  · rfl

/-- C7 as amended: other than POST's requirement that `title` be truthy
and the ownership check, the handlers impose no validation condition on
task fields: POST accepts any description, priority, dueDate or
body-supplied owner once the title is truthy (201), and PUT and DELETE on
an owned existing task succeed for every body whatsoever (200). -/
theorem no_other_field_validation (uid freshId taskId : String)
    (body bodyPut : TaskBody) (now : Nat) (db : List Task) (task : Task)
    (hTitle : body.title.truthy = true)
    (hfind : findById db taskId = .ok (some task)) (hown : task.user = uid) :
    (addTask uid body freshId now db).1.status = 201 ∧
    (updateTask uid taskId bodyPut db).1.status = 200 ∧
    (deleteTask uid taskId db).1.status = 200 := by
  refine ⟨by simp [addTask, hTitle], ?_, ?_⟩
  · simp [updateTask, hfind, hown]
  · simp [deleteTask, hfind, hown]

/-- Witness for the amended C7: a body with weird values in every field
other than the title is accepted everywhere. -/
theorem no_other_field_validation_witness :
    (addTask "alice" titledBody "t3" 9 [sampleTask]).1.status = 201 ∧
    (updateTask "alice" "507f1f77bcf86cd799439011"
      { titledBody with title := JsVal.num 0, status := JsVal.str "nonsense" }
      [sampleTask]).1.status = 200 ∧
    (deleteTask "alice" "507f1f77bcf86cd799439011" [sampleTask]).1.status = 200 :=
  no_other_field_validation "alice" "t3" "507f1f77bcf86cd799439011" titledBody
    { titledBody with title := JsVal.num 0, status := JsVal.str "nonsense" }
    9 [sampleTask] sampleTask (by decide) (by decide) (by decide)

/-- C8: a PUT on an owned existing task never changes the owner or the
creation timestamp; every field absent from the body keeps its prior
value; an empty-string title, priority or status also keeps the prior
value (they merge by JavaScript `||`); an empty-string description does
overwrite (it merges by `!== undefined`). -/
theorem put_frame_conditions (uid taskId : String) (body : TaskBody)
    (db : List Task) (task : Task)
    (hfind : findById db taskId = .ok (some task)) (hown : task.user = uid) :
    ∃ t2 : Task,
      updateTask uid taskId body db =
        ({ status := 200, body := .task t2 },
         db.map (fun t => if t.id == taskId then t2 else t)) ∧
      t2.user = task.user ∧ t2.createdAt = task.createdAt ∧
      (body.title = JsVal.undef → t2.title = task.title) ∧
      (body.title = JsVal.str "" → t2.title = task.title) ∧
      (body.description = JsVal.undef → t2.description = task.description) ∧
      (body.priority = JsVal.undef → t2.priority = task.priority) ∧
      (body.priority = JsVal.str "" → t2.priority = task.priority) ∧
      (body.dueDate = JsVal.undef → t2.dueDate = task.dueDate) ∧
      (body.status = JsVal.undef → t2.status = task.status) ∧
      (body.status = JsVal.str "" → t2.status = task.status) ∧
      (body.description = JsVal.str "" → t2.description = JsVal.str "") := by
  simp only [updateTask, hfind, hown]
  simp only [ne_eq, not_true_eq_false, if_false, reduceIte]
  refine ⟨_, rfl, ?_, ?_, ?_, ?_, ?_, ?_, ?_, ?_, ?_, ?_, ?_⟩ <;>
    first
      | (split <;> rfl)
      | (intro h; split <;> simp_all [JsVal.truthy])

/-- A request body that sets only the description, to the empty string. -/
def emptyDescBody : TaskBody :=
  { title := JsVal.undef, description := JsVal.str "", priority := JsVal.undef
    dueDate := JsVal.undef, status := JsVal.undef, user := JsVal.undef }

/-- Witness for C8 at a concrete owned task and a body that sets only the
description to the empty string. -/
theorem put_frame_conditions_witness :
    ∃ t2 : Task,
      updateTask "alice" "507f1f77bcf86cd799439011" emptyDescBody [sampleTask] =
        ({ status := 200, body := .task t2 },
         [sampleTask].map (fun t => if t.id == "507f1f77bcf86cd799439011" then t2 else t)) ∧
      t2.user = sampleTask.user ∧ t2.createdAt = sampleTask.createdAt ∧
      (emptyDescBody.title = JsVal.undef → t2.title = sampleTask.title) ∧
      (emptyDescBody.description = JsVal.str "" → t2.description = JsVal.str "") :=
  match put_frame_conditions "alice" "507f1f77bcf86cd799439011" emptyDescBody [sampleTask] sampleTask
      (by decide) (by decide) with
  | ⟨t2, h1, h2, h3, h4, _, _, _, _, _, _, _, h12⟩ => ⟨t2, h1, h2, h3, h4, h12⟩

/-! ### Claims about the suggest endpoint -/

/-- C10: the suggest handler issues no outbound HTTP call (the call count
is 0) when the body lacks a (truthy) mainTaskTitle — it responds 400 — or
when the GEMINI_API_KEY configuration value is empty — it responds 500
with the configuration error message.  Both checks run before the fetch,
whatever the external outcome would have been. -/
theorem suggest_no_call_without_inputs (t : JsExpr) (k : String)
    (e : FetchOutcome) :
    (jsTruthy t = false →
      suggest t k e =
        ({ status := 400,
           body := .msg "Main task title is required for suggestions." }, 0)) ∧
    (jsTruthy t = true → k = "" →
      suggest t k e =
        ({ status := 500,
           body := .msg "AI service not configured: GEMINI_API_KEY is missing." }, 0)) := by
  constructor
  · intro h; simp [suggest, h]
  · intro h hk; simp [suggest, h, hk]

/-- Witness for C10: a missing title, and then an empty key. -/
theorem suggest_no_call_without_inputs_witness :
    suggest none "secret" (.netError "down") =
      ({ status := 400,
         body := .msg "Main task title is required for suggestions." }, 0) ∧
    suggest (some (Json.str "Plan trip")) "" (.netError "down") =
      ({ status := 500,
         body := .msg "AI service not configured: GEMINI_API_KEY is missing." }, 0) :=
  ⟨(suggest_no_call_without_inputs none "secret" (.netError "down")).1 rfl,
   (suggest_no_call_without_inputs (some (Json.str "Plan trip")) ""
      (.netError "down")).2 rfl rfl⟩

/-- C5: the suggest handler issues at most one outbound HTTP call on every
run; when the single call fails with a non-OK status the handler echoes
the status with the Gemini error message, and when the OK body fails
`response.json()` it responds 500 — in both cases with exactly the one
call already made and never a second (retry) call. -/
theorem suggest_at_most_one_call (t : JsExpr) (k : String) (e : FetchOutcome) :
    (suggest t k e).2 ≤ 1 ∧
    (∀ st stText errText, e = .notOk st stText errText → jsTruthy t = true →
      k ≠ "" →
      suggest t k e =
        ({ status := st,
           body := .msgDetails ("Gemini API error: " ++ stText) errText }, 1)) ∧
    (∀ m, e = .okBadJson m → jsTruthy t = true → k ≠ "" →
      suggest t k e =
        ({ status := 500,
           body := .msgDetails "Server error while fetching AI suggestions." m },
         1)) := by
  refine ⟨?_, ?_, ?_⟩
  · unfold suggest
    split
    · simp
    · split
      · simp
      · match e with
        | .netError m => simp
        | .notOk st stText errText => simp
        | .okBadJson m => simp
        | .okJson result =>
          cases hx : extractRawText result with
          | error m => simp [hx]
          | ok o =>
            cases o with
            | none => simp [hx]
            | some raw =>
              cases hp : jsonParse raw with
              | none => simp [hx, hp]
              | some j => cases j <;> simp [hx, hp]
  · intro st stText errText he ht hk
    subst he
    simp [suggest, ht, hk]
  · intro m he ht hk
    subst he
    simp [suggest, ht, hk]

/-- Witness for C5: a concrete failed external call is answered with the
echoed error and one call. -/
theorem suggest_at_most_one_call_witness :
    (suggest (some (Json.str "Plan trip")) "secret"
      (.notOk 503 "Service Unavailable" "overloaded")).2 ≤ 1 ∧
    suggest (some (Json.str "Plan trip")) "secret"
        (.notOk 503 "Service Unavailable" "overloaded") =
      ({ status := 503,
         body := .msgDetails "Gemini API error: Service Unavailable"
           "overloaded" }, 1) :=
  ⟨(suggest_at_most_one_call (some (Json.str "Plan trip")) "secret"
      (.notOk 503 "Service Unavailable" "overloaded")).1,
   (suggest_at_most_one_call (some (Json.str "Plan trip")) "secret"
      (.notOk 503 "Service Unavailable" "overloaded")).2.1
      503 "Service Unavailable" "overloaded" rfl rfl (by decide)⟩

/-- C6: on an OK external response with JSON body `result`, the suggest
handler responds 200 with a suggestions body exactly when the body's
shape validation finds `candidates[0].content.parts[0].text` (a truthy
text, yielding its raw string) and that string `JSON.parse`s to an array;
in every other case — missing nesting, unparseable text, or a parsed
value that is not an array — it responds 500. -/
theorem suggest_ok_classification (t : JsExpr) (k : String) (result : Json)
    (hT : jsTruthy t = true) (hK : k ≠ "") :
    ((∃ l, suggest t k (.okJson result) =
        ({ status := 200, body := .suggestions l }, 1)) ↔
      (∃ s l, extractRawText result = .ok (some s) ∧
        jsonParse s = some (Json.arr l))) ∧
    ((¬ ∃ s l, extractRawText result = .ok (some s) ∧
        jsonParse s = some (Json.arr l)) →
      (suggest t k (.okJson result)).1.status = 500) := by
  cases hx : extractRawText result with
  | error m =>
    have hs : suggest t k (.okJson result) =
        ({ status := 500,
           body := .msgDetails "Server error while fetching AI suggestions." m },
         1) := by
      simp [suggest, hT, hK, hx]
    refine ⟨⟨?_, ?_⟩, ?_⟩
    · rintro ⟨l, hl⟩; rw [hs] at hl; simp at hl
    · rintro ⟨s, l, hsx, _⟩; simp at hsx
    · intro _; rw [hs]
  | ok o =>
    cases o with
    | none =>
      have hs : suggest t k (.okJson result) =
          ({ status := 500,
             body := .msg "No valid AI suggestions received from the service." },
           1) := by
        simp [suggest, hT, hK, hx]
      refine ⟨⟨?_, ?_⟩, ?_⟩
      · rintro ⟨l, hl⟩; rw [hs] at hl; simp at hl
      · rintro ⟨s, l, hsx, _⟩; simp at hsx
      · intro _; rw [hs]
    | some raw =>
      cases hp : jsonParse raw with
      | none =>
        have hs : suggest t k (.okJson result) =
            ({ status := 500,
               body := .msgDetails
                 "Failed to parse AI suggestions (invalid format from Gemini)."
                 "SyntaxError" }, 1) := by
          simp [suggest, hT, hK, hx, hp]
        refine ⟨⟨?_, ?_⟩, ?_⟩
        · rintro ⟨l, hl⟩; rw [hs] at hl; simp at hl
        · rintro ⟨s, l, hsx, hpl⟩
          obtain rfl : raw = s := by simpa using hsx
          rw [hp] at hpl; simp at hpl
        · intro _; rw [hs]
      | some j =>
        cases j with
        | arr l0 =>
          have hs : suggest t k (.okJson result) =
              ({ status := 200, body := .suggestions l0 }, 1) := by
            simp [suggest, hT, hK, hx, hp]
          refine ⟨⟨?_, ?_⟩, ?_⟩
          · intro _; exact ⟨raw, l0, rfl, hp⟩
          · intro _; exact ⟨l0, hs⟩
          · intro hneg; exact absurd ⟨raw, l0, rfl, hp⟩ hneg
        | null =>
          have hs : suggest t k (.okJson result) =
              ({ status := 500,
                 body := .msgDetails
                   "Failed to parse AI suggestions (invalid format from Gemini)."
                   "Parsed suggestions are not an array." }, 1) := by
            simp [suggest, hT, hK, hx, hp]
          refine ⟨⟨?_, ?_⟩, ?_⟩
          · rintro ⟨l, hl⟩; rw [hs] at hl; simp at hl
          · rintro ⟨s, l, hsx, hpl⟩
            obtain rfl : raw = s := by simpa using hsx
            rw [hp] at hpl; simp at hpl
          · intro _; rw [hs]
        | bool b =>
          have hs : suggest t k (.okJson result) =
              ({ status := 500,
                 body := .msgDetails
                   "Failed to parse AI suggestions (invalid format from Gemini)."
                   "Parsed suggestions are not an array." }, 1) := by
            simp [suggest, hT, hK, hx, hp]
          refine ⟨⟨?_, ?_⟩, ?_⟩
          · rintro ⟨l, hl⟩; rw [hs] at hl; simp at hl
          · rintro ⟨s, l, hsx, hpl⟩
            obtain rfl : raw = s := by simpa using hsx
            rw [hp] at hpl; simp at hpl
          · intro _; rw [hs]
        | num n =>
          have hs : suggest t k (.okJson result) =
              ({ status := 500,
                 body := .msgDetails
                   "Failed to parse AI suggestions (invalid format from Gemini)."
                   "Parsed suggestions are not an array." }, 1) := by
            simp [suggest, hT, hK, hx, hp]
          refine ⟨⟨?_, ?_⟩, ?_⟩
          · rintro ⟨l, hl⟩; rw [hs] at hl; simp at hl
          · rintro ⟨s, l, hsx, hpl⟩
            obtain rfl : raw = s := by simpa using hsx
            rw [hp] at hpl; simp at hpl
          · intro _; rw [hs]
        | str s0 =>
          have hs : suggest t k (.okJson result) =
              ({ status := 500,
                 body := .msgDetails
                   "Failed to parse AI suggestions (invalid format from Gemini)."
                   "Parsed suggestions are not an array." }, 1) := by
            simp [suggest, hT, hK, hx, hp]
          refine ⟨⟨?_, ?_⟩, ?_⟩
          · rintro ⟨l, hl⟩; rw [hs] at hl; simp at hl
          · rintro ⟨s, l, hsx, hpl⟩
            obtain rfl : raw = s := by simpa using hsx
            rw [hp] at hpl; simp at hpl
          · intro _; rw [hs]
        | obj fs =>
          have hs : suggest t k (.okJson result) =
              ({ status := 500,
                 body := .msgDetails
                   "Failed to parse AI suggestions (invalid format from Gemini)."
                   "Parsed suggestions are not an array." }, 1) := by
            simp [suggest, hT, hK, hx, hp]
          refine ⟨⟨?_, ?_⟩, ?_⟩
          · rintro ⟨l, hl⟩; rw [hs] at hl; simp at hl
          · rintro ⟨s, l, hsx, hpl⟩
            obtain rfl : raw = s := by simpa using hsx
            rw [hp] at hpl; simp at hpl
          · intro _; rw [hs]

/-- A well-formed Gemini response body whose text is the JSON array
"[1,2]". -/
def goodGeminiBody : Json :=
  Json.obj [("candidates",
    Json.arr [Json.obj [("content",
      Json.obj [("parts",
        Json.arr [Json.obj [("text", Json.str "[1,2]")]])])]])]

/-- Witness for C6 at a concrete well-formed external body. -/
theorem suggest_ok_classification_witness :
    ∃ l, suggest (some (Json.str "Plan trip")) "secret" (.okJson goodGeminiBody) =
      ({ status := 200, body := .suggestions l }, 1) :=
  ((suggest_ok_classification (some (Json.str "Plan trip")) "secret"
      goodGeminiBody rfl (by decide)).1).mpr
    ⟨"[1,2]", [Json.num 1, Json.num 2], rfl, rfl⟩

/-! ### GET /api/tasks discloses only the requester's tasks (C3) -/

/-- Membership is preserved by `insertDesc`. -/
theorem mem_insertDesc (t a : Task) (l : List Task) :
    t ∈ insertDesc a l ↔ t = a ∨ t ∈ l := by
  induction l with
  | nil => simp [insertDesc]
  | cons h tl ih =>
    simp only [insertDesc]
    split
    · simp
    · simp [ih]
      tauto

/-- Membership is preserved by the sort. -/
theorem mem_sortByCreatedDesc (t : Task) (l : List Task) :
    t ∈ sortByCreatedDesc l ↔ t ∈ l := by
  induction l with
  | nil => simp [sortByCreatedDesc]
  | cons h tl ih => simp [sortByCreatedDesc, mem_insertDesc, ih]

/-- C3: the GET /api/tasks response contains exactly the tasks whose
`user` field equals the authenticated user's id, and the response is a
function of those tasks alone: two database states whose sublists of
tasks owned by the requester agree produce identical responses, so no
other user's task is ever disclosed. -/
theorem get_tasks_owner_only (uid : String) (db dbOther : List Task) :
    (∃ L, getTasks uid db = { status := 200, body := .tasks L } ∧
      ∀ t : Task, t ∈ L ↔ (t ∈ db ∧ t.user = uid)) ∧
    (db.filter (fun t => t.user == uid) =
        dbOther.filter (fun t => t.user == uid) →
      getTasks uid db = getTasks uid dbOther) := by
  constructor
  · refine ⟨_, rfl, ?_⟩
    intro t
    rw [mem_sortByCreatedDesc]
    simp [List.mem_filter]
  · intro h
    simp [getTasks, h]

/-- Witness for C3: adding "bob"'s task to the database does not change
"alice"'s response. -/
theorem get_tasks_owner_only_witness :
    (∃ L, getTasks "alice" [sampleTask] = { status := 200, body := .tasks L } ∧
      ∀ t : Task, t ∈ L ↔ (t ∈ [sampleTask] ∧ t.user = "alice")) ∧
    getTasks "alice" [sampleTask] =
      getTasks "alice" [sampleTask,
        { sampleTask with id := "t8", user := "bob", createdAt := 9 }] :=
  ⟨(get_tasks_owner_only "alice" [sampleTask] [sampleTask]).1,
   (get_tasks_owner_only "alice" [sampleTask]
      [sampleTask, { sampleTask with id := "t8", user := "bob", createdAt := 9 }]).2
     (by decide)⟩

end TaskManager
